import Mathlib

/-!
Verification of the Zoho Desk article-migration engine.

Shallow embedding of the core logic of the repository:
  src/src/zoho_desk_api.py  (`ZohoDeskAPI.get_all_articles`, the pager)
  src/src/migrator.py       (`ArticleMigrator`: category mapping,
                             article transformation, single-article migration)

External collaborators (the HTTP article store and the OAuth client) are
modelled as function parameters: a page store `Nat → Option (List α)`
for the pager, and `get_article_by_id` / `create_article` functions for the
orchestrator.  A Python `None` return is `Option.none`; a JSON dict is a
structure whose optional keys are `Option` fields (`none` = key absent).
-/

set_option maxRecDepth 20000

namespace ZohoDesk

/-- A source article, as the dict returned by `get_article_by_id`.
Each field is `Option`al: `none` models a dict that lacks that key, so
`source_article.get(k)` is the field itself. -/
structure Article where
  id : Option String := none
  title : Option String := none
  answer : Option String := none
  categoryId : Option String := none
  departmentId : Option String := none
  status : Option String := none
  tags : Option (List String) := none
  summary : Option String := none
deriving DecidableEq

/-- The payload built by `transform_article` (migrator.py lines 105-126).
`title`, `answer`, `categoryId`, `departmentId` keys are always present
(`title`/`answer` may carry a Python `None` value, hence `Option String`);
`status`, `tags`, `summary` are `none` exactly when the key is omitted. -/
structure TransformedArticle where
  title : Option String
  answer : Option String
  categoryId : String
  departmentId : String
  status : Option String := none
  tags : Option (List String) := none
  summary : Option String := none
deriving DecidableEq

/-- Response dict of `create_article`: `id` and `permalink` read with `.get`. -/
structure CreatedArticle where
  id : Option String := none
  permalink : Option String := none
deriving DecidableEq

/-! ## Pager: `ZohoDeskAPI.get_all_articles` (zoho_desk_api.py lines 162-194)

The remote store is a function `store : Nat → Option (List α)` giving, for a
one-indexed offset, the page that `get_articles(limit=100, from_index=off)`
yields.  `none` collapses the two cases in which the loop breaks at line 178:
`get_articles` returned `None` (request error) or a dict without a `data` key.
`some articles` is the `data` list.

The `while True:` loop has no iteration cap, so the embedding is fuel-indexed:
`none` means the fuel ran out before the loop finished; `some (articles, n)`
means the loop finished having issued `n` page requests, returning
`articles`.  Each loop iteration issues exactly one `get_articles` request. -/

/-- Loop body of `get_all_articles`: state is the current `from_index`, the
accumulated `all_articles`, and the number of page requests issued so far.
`batch_size` is the literal 100 of line 171. -/
def get_all_articles_aux (store : Nat → Option (List α)) :
    Nat → Nat → List α → Nat → Option (List α × Nat)
  | 0, _, _, _ => none
  | fuel + 1, from_index, all_articles, reqs =>
    match store from_index with
    | none => some (all_articles, reqs + 1)
    | some articles =>
      if articles.isEmpty then some (all_articles, reqs + 1)
      else if articles.length < 100 then some (all_articles ++ articles, reqs + 1)
      else get_all_articles_aux store fuel (from_index + articles.length)
            (all_articles ++ articles) (reqs + 1)

/-- `get_all_articles`: starts at `from_index = 1` with an empty accumulator. -/
def get_all_articles (store : Nat → Option (List α)) (fuel : Nat) :
    Option (List α × Nat) :=
  get_all_articles_aux store fuel 1 [] 0

/-- The pager diverges on `store`: no amount of fuel finishes the loop. -/
def pager_diverges (store : Nat → Option (List α)) : Prop :=
  ∀ fuel : Nat, get_all_articles store fuel = none

/-- A store that always answers with a full page of 100 items. -/
def full_store : Nat → Option (List Nat) :=
  fun _ => some (List.replicate 100 0)

/-- Length of the page the store returns at `off` (empty if the request fails). -/
def page_len (store : Nat → Option (List α)) (off : Nat) : Nat :=
  ((store off).getD []).length

/-- The loop stops upon requesting offset `off`: the request fails, or the
page is empty, or the page is shorter than the batch size of 100. -/
def stops_at (store : Nat → Option (List α)) (off : Nat) : Bool :=
  match store off with
  | none => true
  | some articles => articles.isEmpty || articles.length < 100

/-- The offset the loop reaches after `n` full pages starting from `off`. -/
def traj (store : Nat → Option (List α)) (off : Nat) : Nat → Nat
  | 0 => off
  | n + 1 => traj store (off + page_len store off) n

/-! ## Category mapper: `ArticleMigrator.map_category_id` (migrator.py 61-82) -/

/-- `dict.get(k)` on the category map, modelled as an association list with
string keys.  The key is an `Option String` because `transform_article`
passes `source_article.get('categoryId')`, which may be Python `None`
(no `None` key exists in the table, so the lookup then yields `None`). -/
def dict_get (m : List (String × String)) : Option String → Option String
  | none => none
  | some k => (m.find? (fun p => p.1 == k)).map (fun p => p.2)

/-- Python `s.startswith(p)`: `p` is a prefix of the character sequence of
`s`.  (Stated on the character lists so that it evaluates by structural
recursion.) -/
def startswith (s p : String) : Bool :=
  p.data.isPrefixOf s.data

/-- `ArticleMigrator.map_category_id`.  `if not mapped_id:` is true for the
Python values `None` and `''`, hence the two falsy cases before the
`startswith('PLACEHOLDER_')` test; returns `none` where the Python returns
`None`. -/
def map_category_id (m : List (String × String))
    (source_category_id : Option String) : Option String :=
  match dict_get m source_category_id with
  | none => none
  | some mapped_id =>
    if mapped_id = "" then none
    else if startswith mapped_id "PLACEHOLDER_" then none
    else some mapped_id

/-- The `category_map` table built in `ArticleMigrator.__init__`
(migrator.py lines 33-59), verbatim. -/
def category_map : List (String × String) :=
  [("986740000000680203", "986740000000700136"),
   ("986740000000680258", "986740000000700114"),
   ("986740000000682002", "986740000000700125"),
   ("986740000000688053", "986740000000700147"),
   ("986740000000698100", "986740000000700158"),
   ("986740000000698209", "986740000000700169"),
   ("986740000000262213", "986740000000424018"),
   ("986740000000698448", "986740000000698448"),
   ("986740000000698752", "986740000000698752"),
   ("986740000000698851", "986740000000698851"),
   ("986740000000698982", "PLACEHOLDER_SCHEDULE_FARES"),
   ("986740000000703267", "PLACEHOLDER_DELAYS_STATUS"),
   ("986740000000703324", "986740000000700136"),
   ("986740000000703347", "986740000000700114"),
   ("986740000000703534", "986740000000700169"),
   ("986740000000703589", "PLACEHOLDER_EVENT_TRAINS"),
   ("986740000000703694", "PLACEHOLDER_EMPLOYMENT"),
   ("986740000000716054", "PLACEHOLDER_MAINTENANCE")]

/-! ## Article transformer: `ArticleMigrator.transform_article` (migrator.py 84-126) -/

/-- `ArticleMigrator.transform_article`.  `if not destination_category_id:`
catches Python `None` and `''`; the optional fields follow lines 115-124:
`status` if the key is present, `tags` if present and truthy (non-empty),
`summary` if present and truthy (non-empty). -/
def transform_article (m : List (String × String)) (source_article : Article)
    (destination_department_id : String) : Option TransformedArticle :=
  match map_category_id m source_article.categoryId with
  | none => none
  | some destination_category_id =>
    if destination_category_id = "" then none
    else
      let t0 : TransformedArticle :=
        { title := source_article.title
          answer := source_article.answer
          categoryId := destination_category_id
          departmentId := destination_department_id }
      let t1 := match source_article.status with
        | some s => { t0 with status := some s }
        | none => t0
      let t2 := match source_article.tags with
        | some l => if l.isEmpty then t1 else { t1 with tags := some l }
        | none => t1
      let t3 := match source_article.summary with
        | some s => if s = "" then t2 else { t2 with summary := some s }
        | none => t2
      some t3

/-! ## Orchestrator: `ArticleMigrator.migrate_single_article` (migrator.py 128-214)

The result dict of each branch is a `MigrationResult` whose keys outside the
common `article_id`/`status` are `Option`-wrapped (`none` = key absent from
that branch's dict).  The collaborators `source_api.get_article_by_id` and
`destination_api.create_article` are function parameters returning `none`
where the Python returns `None`.  The function returns the result, the
updated `migration_log`, and how many times `create_article` was invoked. -/

/-- One entry of `self.migration_log`.  `title`, `new_article_id` and
`new_permalink` are doubly optional: the outer `Option` is key presence in
the result dict, the inner one the possibly-`None` value read with `.get`. -/
structure MigrationResult where
  article_id : String
  title : Option (Option String) := none
  status : String
  error : Option String := none
  source : Option Article := none
  transformed : Option TransformedArticle := none
  new_article_id : Option (Option String) := none
  new_permalink : Option (Option String) := none
deriving DecidableEq

/-- `self.migration_log` as set by `ArticleMigrator.__init__` (line 28). -/
def init_migration_log : List MigrationResult := []

/-- `ArticleMigrator.migrate_single_article`.  Returns
`(result, migration_log after the call, number of create_article calls)`. -/
def migrate_single_article
    (get_article_by_id : String → Option Article)
    (create_article : TransformedArticle → Option CreatedArticle)
    (m : List (String × String)) (migration_log : List MigrationResult)
    (article_id : String) (destination_department_id : String)
    (dry_run : Bool) : MigrationResult × List MigrationResult × Nat :=
  match get_article_by_id article_id with
  | none =>
    let result : MigrationResult :=
      { article_id := article_id, status := "failed"
        error := some "Failed to fetch source article" }
    (result, migration_log ++ [result], 0)
  | some source_article =>
    match transform_article m source_article destination_department_id with
    | none =>
      let result : MigrationResult :=
        { article_id := article_id, title := some source_article.title
          status := "failed", error := some "Category mapping failed" }
      (result, migration_log ++ [result], 0)
    | some transformed =>
      if dry_run then
        let result : MigrationResult :=
          { article_id := article_id, title := some source_article.title
            status := "dry_run", source := some source_article
            transformed := some transformed }
        (result, migration_log ++ [result], 0)
      else
        match create_article transformed with
        | some created_article =>
          let result : MigrationResult :=
            { article_id := article_id, title := some source_article.title
              status := "success"
              new_article_id := some created_article.id
              new_permalink := some created_article.permalink }
          (result, migration_log ++ [result], 1)
        | none =>
          let result : MigrationResult :=
            { article_id := article_id, title := some source_article.title
              status := "failed", error := some "API creation failed" }
          (result, migration_log ++ [result], 1)

/-! ## Concrete stores and collaborators used in the scenario theorems -/

/-- An honest store holding exactly 237 articles (numbered 0..236): the page
at one-indexed offset `off` is the next at-most-100 articles. -/
def store237 : Nat → Option (List Nat) :=
  fun off => some (((List.range 237).drop (off - 1)).take 100)

/-- A store whose first page is full (100 items) and whose second page
request fails (`get_articles` returns `None`). -/
def fail_after_one_page_store : Nat → Option (List Nat) :=
  fun off => if off = 1 then some (List.replicate 100 0) else none

/-- A store with exactly 100 articles: full first page, then an honest
empty page signalling the end of the collection. -/
def short_after_one_page_store : Nat → Option (List Nat) :=
  fun off => if off = 1 then some (List.replicate 100 0) else some []

/-- A source API whose article has a category id absent from `category_map`. -/
def fetch_unmapped : String → Option Article :=
  fun _ => some { title := some "Wi-Fi Help", categoryId := some "C-NOT-IN-TABLE" }

/-- A source API whose article has a category id mapped to a placeholder. -/
def fetch_placeholder : String → Option Article :=
  fun _ => some { title := some "Wi-Fi Help", categoryId := some "986740000000698982" }

/-- A destination API whose create call always fails (never reached in the
failure scenarios below). -/
def no_create : TransformedArticle → Option CreatedArticle :=
  fun _ => none

/-- A source API whose article dict has no `categoryId` key at all. -/
def fetch_no_category : String → Option Article :=
  fun _ => some { title := some "T" }

/-- A source article with a mapped category and no `status`, `tags` or
`summary` keys. -/
def bare_article : Article :=
  { title := some "T", answer := some "A"
    categoryId := some "986740000000680203" }

/-- The payload `transform_article` builds from `bare_article`. -/
def bare_payload : TransformedArticle :=
  { title := some "T", answer := some "A"
    categoryId := "986740000000700136", departmentId := "DEPT-DST" }

/-! ## Pager theorems -/

/-- Helper: against a store of endless full pages, the loop body never
finishes, whatever the fuel, the offset, the accumulator or the counter. -/
theorem get_all_articles_aux_full_none (fuel : Nat) :
    ∀ (off : Nat) (acc : List Nat) (reqs : Nat),
      get_all_articles_aux full_store fuel off acc reqs = none := by
  induction fuel with
  | zero => intro off acc reqs; rfl
  | succ n ih =>
    intro off acc reqs
    simp [get_all_articles_aux, full_store, ih]

/-- C1 counterexample: `get_all_articles` has no maximum-iteration or
total-count cap; against a store that always returns full pages of 100
items the `while True:` loop never terminates. -/
theorem C1_counterexample : pager_diverges full_store := by
  intro fuel
  exact get_all_articles_aux_full_none fuel 1 [] 0

/-- Helper: if the store stops the loop at the offset reached after `n`
full pages, then fuel `n + 1` completes the loop from any state. -/
theorem get_all_articles_aux_stops (store : Nat → Option (List α)) :
    ∀ (n off : Nat), stops_at store (traj store off n) = true →
      ∀ (acc : List α) (reqs : Nat),
        (get_all_articles_aux store (n + 1) off acc reqs).isSome = true := by
  intro n
  induction n with
  | zero =>
    intro off h acc reqs
    simp only [traj] at h
    simp only [get_all_articles_aux]
    cases hs : store off with
    | none => simp
    | some articles =>
      simp only [stops_at, hs, Bool.or_eq_true, decide_eq_true_eq] at h
      rcases h with h | h
      · simp [h]
      · by_cases he : articles.isEmpty
        · simp [he]
        · simp [he, h]
  | succ k ih =>
    intro off h acc reqs
    simp only [traj] at h
    simp only [get_all_articles_aux]
    cases hs : store off with
    | none => simp
    | some articles =>
      simp only
      split
      · simp
      · split
        · simp
        · have hp : page_len store off = articles.length := by
            simp [page_len, hs]
          rw [hp] at h
          exact ih (off + articles.length) h (acc ++ articles) (reqs + 1)

/-- C1 (amended): termination of `get_all_articles` is not guaranteed for
every store and there is no iteration cap; the fetch terminates whenever the
store stops the loop (failed request, empty page, or short page) at the
offset reached after some number `n` of full pages, with `n + 1` iterations
sufficing. -/
theorem C1_get_all_articles_terminates_when_store_stops
    (store : Nat → Option (List α)) (n : Nat)
    (h : stops_at store (traj store 1 n) = true) :
    (get_all_articles store (n + 1)).isSome = true :=
  get_all_articles_aux_stops store n 1 h [] 0

/-- Witness for C1's amended theorem: the 237-article store stops the loop
after two full pages, so fuel 3 completes the fetch. -/
theorem C1_witness :
    stops_at store237 (traj store237 1 2) = true ∧
    (get_all_articles store237 3).isSome = true :=
  ⟨by decide, C1_get_all_articles_terminates_when_store_stops store237 2 (by decide)⟩

/-- C2: a failed page request is indistinguishable from an honest end of the
collection: the aggregation breaks and returns the articles collected so
far with no failure indicator, although the docstring promises `None` on
error.  The store failing at the second page and the store whose second page
is an honest empty page produce identical return values. -/
theorem C2_failure_indistinguishable_from_success :
    get_all_articles fail_after_one_page_store 10 =
      get_all_articles short_after_one_page_store 10 ∧
    get_all_articles fail_after_one_page_store 10 =
      some (List.replicate 100 0, 2) := by decide

/-- C4: on the store with pages of sizes 100, 100, 37 at offsets 1, 101,
201, `get_all_articles` returns the 237 articles in page order and issues
exactly 3 page requests. -/
theorem C4_pager_scenario :
    page_len store237 1 = 100 ∧ page_len store237 101 = 100 ∧
    page_len store237 201 = 37 ∧
    get_all_articles store237 10 =
      some ((store237 1).getD [] ++ ((store237 101).getD [] ++
        (store237 201).getD []), 3) ∧
    get_all_articles store237 10 = some (List.range 237, 3) ∧
    (List.range 237).length = 237 := by decide

/-! ## Category mapper theorems -/

/-- C3 counterexample: the two failure modes of `map_category_id` are not
distinguishable by the caller: an id absent from the table and an id mapped
to a placeholder both return the very same value `None`. -/
theorem C3_counterexample :
    dict_get category_map (some "C-NOT-IN-TABLE") = none ∧
    dict_get category_map (some "986740000000698982") =
      some "PLACEHOLDER_SCHEDULE_FARES" ∧
    map_category_id category_map (some "C-NOT-IN-TABLE") =
      map_category_id category_map (some "986740000000698982") ∧
    map_category_id category_map (some "C-NOT-IN-TABLE") = none := by decide

/-- C3 (amended): `map_category_id` fails on ids absent from the table and
on ids mapped to a placeholder, but both failures return the same `None`;
the two cases are reported only on standard output, not in the return
value. -/
theorem C3_map_category_id_failures (m : List (String × String)) (id : String) :
    (dict_get m (some id) = none → map_category_id m (some id) = none) ∧
    (∀ v, dict_get m (some id) = some v → startswith v "PLACEHOLDER_" = true →
      map_category_id m (some id) = none) := by
  constructor
  · intro h
    simp [map_category_id, h]
  · intro v hv hp
    unfold map_category_id
    rw [hv]
    by_cases he : v = ""
    · simp [he]
    · simp [he, hp]

/-- Witness for C3's amended theorem at the table of the source: a missing
id and a placeholder-mapped id both resolve to `None`. -/
theorem C3_witness :
    map_category_id category_map (some "C-MISSING") = none ∧
    map_category_id category_map (some "986740000000703267") = none :=
  ⟨(C3_map_category_id_failures category_map "C-MISSING").1 (by decide),
   (C3_map_category_id_failures category_map "986740000000703267").2
     "PLACEHOLDER_DELAYS_STATUS" (by decide) (by decide)⟩

/-- Helper: a successful `map_category_id` result is a non-empty,
non-placeholder destination id. -/
theorem map_category_id_some_props (m : List (String × String))
    (cid : Option String) (d : String) (h : map_category_id m cid = some d) :
    d ≠ "" ∧ startswith d "PLACEHOLDER_" = false := by
  unfold map_category_id at h
  cases hg : dict_get m cid with
  | none => rw [hg] at h; cases h
  | some v =>
    rw [hg] at h
    by_cases he : v = ""
    · simp [he] at h
    · by_cases hp : startswith v "PLACEHOLDER_"
      · simp [he, hp] at h
      · simp [he, hp] at h
        subst h
        exact ⟨he, by simp [hp]⟩

/-! ## Transformer theorems -/

/-- Helper: closed form of `transform_article`: the payload fields as
functions of the source article. -/
theorem transform_article_eq (m : List (String × String)) (art : Article)
    (dept : String) :
    transform_article m art dept =
      match map_category_id m art.categoryId with
      | none => none
      | some d =>
        if d = "" then none
        else some
          { title := art.title
            answer := art.answer
            categoryId := d
            departmentId := dept
            status := art.status
            tags := match art.tags with
              | some l => if l.isEmpty then none else some l
              | none => none
            summary := match art.summary with
              | some s => if s = "" then none else some s
              | none => none } := by
  unfold transform_article
  cases map_category_id m art.categoryId with
  | none => rfl
  | some d =>
    by_cases hd : d = ""
    · simp [hd]
    · simp only [if_neg hd]
      rcases art.status with _ | st <;>
        rcases art.tags with _ | l <;>
        rcases art.summary with _ | s <;>
        simp <;>
        split_ifs <;>
        simp_all

/-- C5: whenever `transform_article` returns a payload, its `categoryId` is
neither empty nor a placeholder marker; when the category cannot be
resolved the function returns `None` and no payload is produced. -/
theorem C5_transformed_categoryId_resolved (m : List (String × String))
    (art : Article) (dept : String) (t : TransformedArticle)
    (h : transform_article m art dept = some t) :
    t.categoryId ≠ "" ∧ startswith t.categoryId "PLACEHOLDER_" = false := by
  rw [transform_article_eq] at h
  cases hm : map_category_id m art.categoryId with
  | none => rw [hm] at h; cases h
  | some d =>
    obtain ⟨hne, hp⟩ := map_category_id_some_props m art.categoryId d hm
    simp only [hm, if_neg hne] at h
    cases h
    exact ⟨hne, hp⟩

/-- Witness for C5: the Wi-Fi article of the end-to-end scenario, with the
source table. -/
theorem C5_witness :
    transform_article category_map
        { title := some "Wi-Fi Help", answer := some "body"
          categoryId := some "986740000000682002" } "DEPT-DST" =
      some { title := some "Wi-Fi Help", answer := some "body"
             categoryId := "986740000000700125", departmentId := "DEPT-DST" } ∧
    ("986740000000700125" : String) ≠ "" ∧
    startswith "986740000000700125" "PLACEHOLDER_" = false :=
  ⟨by decide,
   C5_transformed_categoryId_resolved category_map
     { title := some "Wi-Fi Help", answer := some "body"
       categoryId := some "986740000000682002" } "DEPT-DST"
     { title := some "Wi-Fi Help", answer := some "body"
       categoryId := "986740000000700125", departmentId := "DEPT-DST" }
     (by decide)⟩

/-- C8: optional fields absent from the source article are omitted from the
payload (no key at all), while `title` and `answer` are copied verbatim and
`departmentId` is the supplied destination department id. -/
theorem C8_optional_fields_omitted (m : List (String × String)) (art : Article)
    (dept : String) (t : TransformedArticle)
    (h : transform_article m art dept = some t) :
    t.title = art.title ∧ t.answer = art.answer ∧ t.departmentId = dept ∧
    (art.tags = none → t.tags = none) ∧
    (art.summary = none ∨ art.summary = some "" → t.summary = none) ∧
    (art.status = none → t.status = none) := by
  rw [transform_article_eq] at h
  cases hm : map_category_id m art.categoryId with
  | none => rw [hm] at h; cases h
  | some d =>
    simp only [hm] at h
    split at h
    · cases h
    · cases h
      refine ⟨rfl, rfl, rfl, ?_, ?_, ?_⟩
      · intro ht; simp [ht]
      · rintro (hs | hs) <;> simp [hs]
      · intro hst; simp [hst]

/-- Witness for C8: `bare_article` lacks `status`, `tags` and `summary`;
its payload omits all three keys. -/
theorem C8_witness :
    transform_article category_map bare_article "DEPT-DST" =
      some bare_payload ∧
    (bare_payload.title = bare_article.title ∧
     bare_payload.answer = bare_article.answer ∧
     bare_payload.departmentId = "DEPT-DST" ∧
     (bare_article.tags = none → bare_payload.tags = none) ∧
     (bare_article.summary = none ∨ bare_article.summary = some "" →
       bare_payload.summary = none) ∧
     (bare_article.status = none → bare_payload.status = none)) :=
  ⟨by decide,
   C8_optional_fields_omitted category_map bare_article "DEPT-DST"
     bare_payload (by decide)⟩

/-! ## Orchestrator theorems -/

/-- C6 counterexample: `migrate_single_article` records the same
`MigrationResult` — status `failed`, error string `Category mapping failed` —
for an article whose category id is absent from the table and for one whose
category id is mapped to a placeholder, so the recorded failure carries no
distinct `UnmappedCategory` kind.  No create call is issued in either case. -/
theorem C6_counterexample :
    (migrate_single_article fetch_unmapped no_create category_map []
        "A1" "DEPT-DST" false).1 =
      (migrate_single_article fetch_placeholder no_create category_map []
        "A1" "DEPT-DST" false).1 ∧
    (migrate_single_article fetch_unmapped no_create category_map []
        "A1" "DEPT-DST" false).1.error = some "Category mapping failed" ∧
    (migrate_single_article fetch_unmapped no_create category_map []
        "A1" "DEPT-DST" false).2.2 = 0 := by decide

/-- C6 (amended): for an article whose category id is absent from the
mapping table, the migration attempt yields a result with status `failed`
and the generic error string `Category mapping failed` (shared with
placeholder-mapping failures rather than a distinct `UnmappedCategory`
kind), and the destination create operation is never invoked. -/
theorem C6_unmapped_category_fails_without_create
    (get_article_by_id : String → Option Article)
    (create_article : TransformedArticle → Option CreatedArticle)
    (m : List (String × String)) (log : List MigrationResult)
    (article_id dept : String) (dry_run : Bool) (art : Article)
    (hf : get_article_by_id article_id = some art)
    (hcat : dict_get m art.categoryId = none) :
    (migrate_single_article get_article_by_id create_article m log
        article_id dept dry_run).1.status = "failed" ∧
    (migrate_single_article get_article_by_id create_article m log
        article_id dept dry_run).1.error = some "Category mapping failed" ∧
    (migrate_single_article get_article_by_id create_article m log
        article_id dept dry_run).2.2 = 0 := by
  have hmap : map_category_id m art.categoryId = none := by
    simp [map_category_id, hcat]
  have htr : transform_article m art dept = none := by
    rw [transform_article_eq, hmap]
  simp [migrate_single_article, hf, htr]

/-- Witness for C6's amended theorem: the unmapped-category article. -/
theorem C6_witness :
    fetch_unmapped "A1" =
      some { title := some "Wi-Fi Help", categoryId := some "C-NOT-IN-TABLE" } ∧
    dict_get category_map (some "C-NOT-IN-TABLE") = none ∧
    ((migrate_single_article fetch_unmapped no_create category_map []
        "A1" "DEPT-DST" false).1.status = "failed" ∧
     (migrate_single_article fetch_unmapped no_create category_map []
        "A1" "DEPT-DST" false).1.error = some "Category mapping failed" ∧
     (migrate_single_article fetch_unmapped no_create category_map []
        "A1" "DEPT-DST" false).2.2 = 0) :=
  ⟨by decide, by decide,
   C6_unmapped_category_fails_without_create fetch_unmapped no_create
     category_map [] "A1" "DEPT-DST" false
     { title := some "Wi-Fi Help", categoryId := some "C-NOT-IN-TABLE" }
     (by decide) (by decide)⟩

/-- C7: with `dry_run = true`, two invocations on the same article id
against the same source and table produce identical results (in particular
identical `transformed` payloads) and neither invocation calls the
destination create operation, whatever the log state of each invocation. -/
theorem C7_dry_run_idempotent_no_create
    (get_article_by_id : String → Option Article)
    (create_article : TransformedArticle → Option CreatedArticle)
    (m : List (String × String)) (log1 log2 : List MigrationResult)
    (article_id dept : String) :
    (migrate_single_article get_article_by_id create_article m log1
        article_id dept true).1.transformed =
      (migrate_single_article get_article_by_id create_article m log2
        article_id dept true).1.transformed ∧
    (migrate_single_article get_article_by_id create_article m log1
        article_id dept true).1 =
      (migrate_single_article get_article_by_id create_article m log2
        article_id dept true).1 ∧
    (migrate_single_article get_article_by_id create_article m log1
        article_id dept true).2.2 = 0 ∧
    (migrate_single_article get_article_by_id create_article m log2
        article_id dept true).2.2 = 0 := by
  unfold migrate_single_article
  cases hf : get_article_by_id article_id with
  | none => simp [hf]
  | some art =>
    cases ht : transform_article m art dept with
    | none => simp [hf, ht]
    | some tr => simp [hf, ht]

/-- C9: every invocation of `migrate_single_article`, in every branch,
returns a log equal to the previous log with exactly the returned result
appended at the end (so earlier records are untouched), and the log of a
freshly constructed migrator is empty. -/
theorem C9_migration_log_append_only
    (get_article_by_id : String → Option Article)
    (create_article : TransformedArticle → Option CreatedArticle)
    (m : List (String × String)) (log : List MigrationResult)
    (article_id dept : String) (dry_run : Bool) :
    (migrate_single_article get_article_by_id create_article m log
        article_id dept dry_run).2.1 =
      log ++ [(migrate_single_article get_article_by_id create_article m log
        article_id dept dry_run).1] ∧
    init_migration_log = [] := by
  constructor
  · unfold migrate_single_article
    cases hf : get_article_by_id article_id with
    | none => simp [hf]
    | some art =>
      cases ht : transform_article m art dept with
      | none => simp [hf, ht]
      | some tr =>
        cases dry_run
        · cases hc : create_article tr <;> simp [hf, ht, hc]
        · simp [hf, ht]
  · rfl

/-- C10: an article dict with no `categoryId` key (or one whose category id
the table maps to the empty string) makes `transform_article` return `None`
rather than raising, and the migration attempt records a failed result. -/
theorem C10_missing_category_fails_gracefully
    (get_article_by_id : String → Option Article)
    (create_article : TransformedArticle → Option CreatedArticle)
    (m : List (String × String)) (log : List MigrationResult)
    (article_id dept : String) (dry_run : Bool) (art : Article)
    (hf : get_article_by_id article_id = some art)
    (hcat : art.categoryId = none ∨ dict_get m art.categoryId = some "") :
    transform_article m art dept = none ∧
    (migrate_single_article get_article_by_id create_article m log
        article_id dept dry_run).1.status = "failed" ∧
    (migrate_single_article get_article_by_id create_article m log
        article_id dept dry_run).2.1 =
      log ++ [(migrate_single_article get_article_by_id create_article m log
        article_id dept dry_run).1] := by
  have hmap : map_category_id m art.categoryId = none := by
    rcases hcat with hc | hc
    · simp [map_category_id, dict_get, hc]
    · simp [map_category_id, hc]
  have htr : transform_article m art dept = none := by
    rw [transform_article_eq, hmap]
  refine ⟨htr, ?_, ?_⟩ <;> simp [migrate_single_article, hf, htr]

/-- Witness for C10: an article dict with no `categoryId` key. -/
theorem C10_witness :
    fetch_no_category "A9" = some { title := some "T" } ∧
    (Article.categoryId { title := some "T" } = none ∨
      dict_get category_map (Article.categoryId { title := some "T" }) =
        some "") ∧
    (transform_article category_map { title := some "T" } "DEPT-DST" = none ∧
     (migrate_single_article fetch_no_category no_create category_map []
        "A9" "DEPT-DST" false).1.status = "failed" ∧
     (migrate_single_article fetch_no_category no_create category_map []
        "A9" "DEPT-DST" false).2.1 =
       [] ++ [(migrate_single_article fetch_no_category no_create category_map
         [] "A9" "DEPT-DST" false).1]) :=
  ⟨rfl, Or.inl rfl,
   C10_missing_category_fails_gracefully fetch_no_category no_create
     category_map [] "A9" "DEPT-DST" false { title := some "T" }
     rfl (Or.inl rfl)⟩

end ZohoDesk
